import Mathlib

/-!
Verification of the session/conversation lifecycle of the learning chatbot
(src/learnindeep.py).  The script keeps four pieces of session state
(messages, topic, started, llm) and exposes three user actions:

* the Start Learning button (StartTopic),
* the chat input (SendTurn),
* the Reset Chat button (Reset).

The external completion client is modelled by an oracle: each fallible call
(the client constructor and each invoke) is given its outcome as an
Except value.  Besides the resulting session state, each operation records
the error banners it displayed, whether a client was constructed, and the
exact transcripts passed to invoke, so that properties about reported
errors and issued requests can be stated.
-/

/-- Message roles, mirroring SystemMessage / HumanMessage / AIMessage. -/
inductive Role where
  | system
  | user
  | assistant
deriving DecidableEq, BEq

/-- A transcript entry: a role together with its text content. -/
structure Message where
  role : Role
  content : String
deriving DecidableEq

/-- The configured ChatGroq client handle (model, temperature, api key). -/
structure ClientConfig where
  model : String
  temperature : Rat
  groqApiKey : String
deriving DecidableEq

/-- The Streamlit session state used by the script:
messages, topic, started, llm. -/
structure SessionState where
  messages : List Message
  topic : String
  started : Bool
  llm : Option ClientConfig
deriving DecidableEq

/-- The initial session state set up by the st.session_state guards. -/
def initState : SessionState :=
  { messages := [], topic := "", started := false, llm := none }

/-- The sidebar inputs read by the Start Learning handler. -/
structure StartInput where
  apiKey : String
  topic : String
  model : String
  temperature : Rat
  knowledgeLevel : String
deriving DecidableEq

/-- Whether the first character list is a prefix of the second. -/
def isPrefixList : List Char → List Char → Bool
  | [], _ => true
  | _ :: _, [] => false
  | c :: cs, d :: ds => c == d && isPrefixList cs ds

/-- Whether sub occurs as a contiguous run somewhere in the haystack. -/
def strContainsAux (sub : List Char) : List Char → Bool
  | [] => isPrefixList sub []
  | c :: rest => isPrefixList sub (c :: rest) || strContainsAux sub rest

/-- Python substring test: sub in s. -/
def strContains (s sub : String) : Bool :=
  strContainsAux sub.data s.data

/-- ASCII lowercasing of one character (the substrings the handlers look
for are plain ASCII, so ASCII lowercasing captures str.lower here). -/
def charLower (c : Char) : Char :=
  if 65 ≤ c.toNat ∧ c.toNat ≤ 90 then Char.ofNat (c.toNat + 32) else c

/-- str.lower applied to an error text. -/
def lowerStr (s : String) : String :=
  String.mk (s.data.map charLower)

/-- The auth-failure detection used in both exception handlers:
invalid_api_key in str(e).lower() or 401 in str(e). -/
def isAuthError (e : String) : Bool :=
  strContains (lowerStr e) "invalid_api_key" || strContains e "401"

/-- LEARNING_SYSTEM_PROMPT, the fixed pedagogical instruction template. -/
def LEARNING_SYSTEM_PROMPT : String :=
  "You are an exceptional, patient, and dedicated professor with years of teaching experience. Your mission is to take students from zero knowledge to advanced proficiency in their chosen subject.\n"
  ++ "\n"
  ++ "## Core Teaching Principles:\n"
  ++ "\n"
  ++ "1. **Start with Foundations**: Always begin with the absolute basics, assuming minimal prior knowledge. Build concepts layer by layer.\n"
  ++ "\n"
  ++ "2. **Explain the \"Why\"**: For every concept, technique, or approach:\n"
  ++ "   - Explain WHY it exists and what problem it solves\n"
  ++ "   - Provide historical context or motivation\n"
  ++ "   - Show what happens if we DON\x27T use this approach\n"
  ++ "\n"
  ++ "3. **Present Alternatives**: For each concept or method:\n"
  ++ "   - Discuss alternative approaches\n"
  ++ "   - Compare pros and cons\n"
  ++ "   - Explain when to use which approach\n"
  ++ "   - Mention what people used before this technique existed\n"
  ++ "\n"
  ++ "4. **Use Progressive Complexity**: \n"
  ++ "   - Start simple, then gradually increase difficulty\n"
  ++ "   - Use analogies and real-world examples\n"
  ++ "   - Provide code examples that build on previous ones\n"
  ++ "   - Connect new concepts to previously learned ones\n"
  ++ "\n"
  ++ "5. **Interactive Learning**:\n"
  ++ "   - After explaining concepts, provide practice exercises\n"
  ++ "   - Check understanding before moving forward\n"
  ++ "   - Encourage questions at any point\n"
  ++ "   - Adapt pace based on student responses\n"
  ++ "\n"
  ++ "6. **Complete Curriculum Structure**:\n"
  ++ "   - Create a clear roadmap of topics\n"
  ++ "   - Number lessons/modules logically\n"
  ++ "   - Show how topics interconnect\n"
  ++ "   - Indicate prerequisites for advanced topics\n"
  ++ "\n"
  ++ "7. **Practical Application**:\n"
  ++ "   - Include hands-on coding examples\n"
  ++ "   - Provide real-world use cases\n"
  ++ "   - Discuss industry best practices\n"
  ++ "   - Mention common pitfalls and how to avoid them\n"
  ++ "\n"
  ++ "8. **Reasoning and Critical Thinking**:\n"
  ++ "   - Emphasize \"WHY\" not just \"what\" and \"how\"\n"
  ++ "   - Explain reasoning behind design decisions\n"
  ++ "   - Discuss trade-offs in different approaches\n"
  ++ "   - Help develop intuition, not just memorization\n"
  ++ "\n"
  ++ "## Your Teaching Style:\n"
  ++ "- Be patient, encouraging, and approachable\n"
  ++ "- Use clear, jargon-free language (explain jargon when necessary)\n"
  ++ "- Break complex topics into digestible chunks\n"
  ++ "- Provide summaries after major sections\n"
  ++ "- Use analogies from everyday life\n"
  ++ "- Be enthusiastic about the subject matter\n"
  ++ "\n"
  ++ "## Lesson Format:\n"
  ++ "Each lesson should include:\n"
  ++ "- Lesson Title\n"
  ++ "- Objectives\n"
  ++ "- Prerequisites\n"
  ++ "- Concept Introduction\n"
  ++ "- The Reasoning\n"
  ++ "- Alternatives\n"
  ++ "- Hands-On Example\n"
  ++ "- Common Mistakes\n"
  ++ "- Practice Exercise\n"
  ++ "- Summary\n"
  ++ "- Next Steps"

/-- Content of the initial synthesized user message (the f-string at the
start of the try block). -/
def initialUserContent (topic knowledgeLevel : String) : String :=
  "I want to learn " ++ topic ++ ". My current knowledge level is: "
  ++ knowledgeLevel
  ++ ". \n\nPlease:\n1. Introduce yourself as my dedicated professor\n2. Provide a complete curriculum overview/roadmap for learning "
  ++ topic ++ "\n3. Start with Lesson 1 when ready"

/-- The SystemMessage built from LEARNING_SYSTEM_PROMPT. -/
def systemMessage : Message :=
  { role := Role.system, content := LEARNING_SYSTEM_PROMPT }

/-- The initial HumanMessage embedding topic and knowledge level. -/
def initialMessage (topic knowledgeLevel : String) : Message :=
  { role := Role.user, content := initialUserContent topic knowledgeLevel }

/-- The remediation hint shown by the Start Learning exception handler. -/
def startAuthHint : String :=
  "Invalid API Key! Please get a valid key from: https://console.groq.com/keys"

/-- The remediation hint shown by the chat input exception handler. -/
def turnAuthHint : String :=
  "Invalid API Key! Please check your key in the sidebar."

/-- Error banners shown by the Start Learning exception handler for an
exception with text e. -/
def startErrors (e : String) : List String :=
  ["Error: " ++ e] ++ (if isAuthError e then [startAuthHint] else [])

/-- Error banners shown by the chat input exception handler for an
exception with text e. -/
def turnErrors (e : String) : List String :=
  ["Error: " ++ e] ++ (if isAuthError e then [turnAuthHint] else [])

/-- Result of one Start Learning click: the new session state, the error
banners shown, whether a ChatGroq client was constructed, and the
transcripts sent to invoke. -/
structure StartResult where
  state : SessionState
  errors : List String
  clientConstructed : Bool
  requestsSent : List (List Message)
deriving DecidableEq

/-- Result of one chat-input submission. -/
structure TurnResult where
  state : SessionState
  errors : List String
  requestsSent : List (List Message)
deriving DecidableEq

/-- The Start Learning button handler.  Python truthiness of the strings
is the emptiness test.  Inside the try block the statements run in order:
topic and messages and started are assigned, then the ChatGroq constructor
runs (outcome ctor), then messages is set to the system message plus the
initial user message, then invoke runs (outcome invokeRes) and on success
the reply is appended.  The except block reports the error, adds the hint
when the text matches, and sets started to false and llm to none; it never
restores topic or messages. -/
def StartTopic (s : SessionState) (inp : StartInput)
    (ctor : Except String Unit) (invokeRes : Except String String) :
    StartResult :=
  if inp.apiKey = "" then
    { state := s, errors := ["Please enter API key"],
      clientConstructed := false, requestsSent := [] }
  else if inp.topic = "" then
    { state := s, errors := ["Please enter a topic"],
      clientConstructed := false, requestsSent := [] }
  else
    match ctor with
    | Except.error e =>
        { state := { messages := [], topic := inp.topic, started := false,
                     llm := none },
          errors := startErrors e, clientConstructed := false,
          requestsSent := [] }
    | Except.ok _ =>
        match invokeRes with
        | Except.ok reply =>
            { state :=
                { messages := [systemMessage,
                               initialMessage inp.topic inp.knowledgeLevel,
                               { role := Role.assistant, content := reply }],
                  topic := inp.topic, started := true,
                  llm := some { model := inp.model,
                                temperature := inp.temperature,
                                groqApiKey := inp.apiKey } },
              errors := [], clientConstructed := true,
              requestsSent :=
                [[systemMessage,
                  initialMessage inp.topic inp.knowledgeLevel]] }
        | Except.error e =>
            { state :=
                { messages := [systemMessage,
                               initialMessage inp.topic inp.knowledgeLevel],
                  topic := inp.topic, started := false, llm := none },
              errors := startErrors e, clientConstructed := true,
              requestsSent :=
                [[systemMessage,
                  initialMessage inp.topic inp.knowledgeLevel]] }

/-- The chat input handler.  It only runs when started is true and the
submitted prompt is non-empty (Python truthiness of the walrus pattern).
The user message is appended before invoke; on success the reply is
appended, on failure the error (and possibly the hint) is reported and
nothing else changes. -/
def SendTurn (s : SessionState) (prompt : String)
    (invokeRes : Except String String) : TurnResult :=
  if s.started = true ∧ prompt ≠ "" then
    match invokeRes with
    | Except.ok reply =>
        { state := { s with messages :=
            s.messages ++ [{ role := Role.user, content := prompt },
                           { role := Role.assistant, content := reply }] },
          errors := [],
          requestsSent :=
            [s.messages ++ [{ role := Role.user, content := prompt }]] }
    | Except.error e =>
        { state := { s with messages :=
            s.messages ++ [{ role := Role.user, content := prompt }] },
          errors := turnErrors e,
          requestsSent :=
            [s.messages ++ [{ role := Role.user, content := prompt }]] }
  else
    { state := s, errors := [], requestsSent := [] }

/-- The Reset Chat button handler: unconditionally clears everything. -/
def Reset (_s : SessionState) : SessionState :=
  { messages := [], topic := "", started := false, llm := none }

/-- One user action together with the oracle outcomes of its client calls. -/
inductive Event where
  | start (inp : StartInput) (ctor : Except String Unit)
      (invokeRes : Except String String)
  | turn (prompt : String) (invokeRes : Except String String)
  | reset

/-- The state reached after one event. -/
def stepState (s : SessionState) : Event → SessionState
  | Event.start inp c r => (StartTopic s inp c r).state
  | Event.turn p r => (SendTurn s p r).state
  | Event.reset => Reset s

/-- The state reached after a sequence of events. -/
def runEvents (s : SessionState) : List Event → SessionState
  | [] => s
  | e :: rest => runEvents (stepState s e) rest

/-- Run a sequence of successful turns: each element is the submitted
prompt together with the reply returned by the client. -/
def runTurnsOk (s : SessionState) : List (String × String) → SessionState
  | [] => s
  | (p, r) :: rest => runTurnsOk (SendTurn s p (Except.ok r)).state rest

/-- The user/assistant messages contributed by a list of successful
turns, in submission order. -/
def turnMessages : List (String × String) → List Message
  | [] => []
  | (p, r) :: rest =>
      { role := Role.user, content := p }
        :: { role := Role.assistant, content := r } :: turnMessages rest

/-- Number of system messages in a transcript. -/
def systemCount : List Message → Nat
  | [] => 0
  | m :: rest =>
      (if m.role == Role.system then 1 else 0) + systemCount rest

/-- No entry of the transcript is a system message. -/
def noSystemIn : List Message → Bool
  | [] => true
  | m :: rest => !(m.role == Role.system) && noSystemIn rest

/-- Every entry after the first is a non-system message, so any system
message can only be the first element. -/
def sysMsgOk : List Message → Bool
  | [] => true
  | _ :: rest => noSystemIn rest

/-! ## Helper lemmas -/

theorem turnMessages_length (turns : List (String × String)) :
    (turnMessages turns).length = 2 * turns.length := by
  induction turns with
  | nil => rfl
  | cons pr rest ih =>
      obtain ⟨p, r⟩ := pr
      simp only [turnMessages, List.length_cons, ih]
      omega

theorem sendTurn_ok_messages (s : SessionState) (p r : String)
    (hs : s.started = true) (hp : p ≠ "") :
    (SendTurn s p (Except.ok r)).state.messages
        = s.messages ++ [{ role := Role.user, content := p },
                         { role := Role.assistant, content := r }]
    ∧ (SendTurn s p (Except.ok r)).state.started = true := by
  simp [SendTurn, hs, hp]

theorem runTurnsOk_messages (turns : List (String × String)) :
    ∀ s : SessionState, s.started = true → (∀ pr ∈ turns, pr.1 ≠ "") →
      (runTurnsOk s turns).messages = s.messages ++ turnMessages turns
      ∧ (runTurnsOk s turns).started = true := by
  induction turns with
  | nil =>
      intro s hs _
      exact ⟨by simp [runTurnsOk, turnMessages], by simpa [runTurnsOk] using hs⟩
  | cons pr rest ih =>
      intro s hs hall
      obtain ⟨p, r⟩ := pr
      have hp : p ≠ "" := hall (p, r) (List.mem_cons_self _ _)
      have hstep := sendTurn_ok_messages s p r hs hp
      have hrest := ih (SendTurn s p (Except.ok r)).state hstep.2
        (fun q hq => hall q (List.mem_cons_of_mem _ hq))
      refine ⟨?_, ?_⟩
      · simp only [runTurnsOk]
        rw [hrest.1, hstep.1]
        simp [turnMessages, List.append_assoc]
      · simp only [runTurnsOk]
        exact hrest.2

theorem noSystemIn_append (l1 l2 : List Message)
    (h1 : noSystemIn l1 = true) (h2 : noSystemIn l2 = true) :
    noSystemIn (l1 ++ l2) = true := by
  induction l1 with
  | nil => simpa using h2
  | cons m rest ih =>
      simp only [List.cons_append, noSystemIn, Bool.and_eq_true] at h1 ⊢
      exact ⟨h1.1, ih h1.2⟩

theorem sysMsgOk_append (l1 l2 : List Message)
    (h1 : sysMsgOk l1 = true) (h2 : noSystemIn l2 = true) :
    sysMsgOk (l1 ++ l2) = true := by
  cases l1 with
  | nil =>
      cases l2 with
      | nil => rfl
      | cons m rest =>
          simp only [List.nil_append, sysMsgOk]
          simp only [noSystemIn, Bool.and_eq_true] at h2
          exact h2.2
  | cons m rest =>
      simp only [List.cons_append, sysMsgOk] at h1 ⊢
      exact noSystemIn_append rest l2 h1 h2

theorem noSystemIn_systemCount (l : List Message)
    (h : noSystemIn l = true) : systemCount l = 0 := by
  induction l with
  | nil => rfl
  | cons m rest ih =>
      simp only [noSystemIn, Bool.and_eq_true, Bool.not_eq_true'] at h
      simp [systemCount, h.1, ih h.2]

theorem sysMsgOk_systemCount (l : List Message)
    (h : sysMsgOk l = true) : systemCount l ≤ 1 := by
  cases l with
  | nil => simp [systemCount]
  | cons m rest =>
      have hrest : systemCount rest = 0 :=
        noSystemIn_systemCount rest (by simpa [sysMsgOk] using h)
      simp only [systemCount, hrest]
      cases m.role == Role.system <;> simp

theorem stepState_sysMsgOk (s : SessionState) (e : Event)
    (h : sysMsgOk s.messages = true) :
    sysMsgOk (stepState s e).messages = true := by
  cases e with
  | start inp c r =>
      by_cases hk : inp.apiKey = ""
      · simpa [stepState, StartTopic, hk] using h
      · by_cases ht : inp.topic = ""
        · simpa [stepState, StartTopic, hk, ht] using h
        · cases c with
          | error msg => simp [stepState, StartTopic, hk, ht, sysMsgOk]
          | ok u =>
              cases r with
              | ok reply =>
                  simp [stepState, StartTopic, hk, ht, sysMsgOk, noSystemIn,
                    initialMessage]
                  decide
              | error msg =>
                  simp [stepState, StartTopic, hk, ht, sysMsgOk, noSystemIn,
                    initialMessage]
                  decide
  | turn p r =>
      by_cases hcond : s.started = true ∧ p ≠ ""
      · cases r with
        | ok reply =>
            have hmsg : (stepState s (Event.turn p (Except.ok reply))).messages
                = s.messages ++ [{ role := Role.user, content := p },
                                 { role := Role.assistant, content := reply }] := by
              simp [stepState, SendTurn, hcond]
            rw [hmsg]
            exact sysMsgOk_append _ _ h rfl
        | error msg =>
            have hmsg : (stepState s (Event.turn p (Except.error msg))).messages
                = s.messages ++ [{ role := Role.user, content := p }] := by
              simp [stepState, SendTurn, hcond]
            rw [hmsg]
            exact sysMsgOk_append _ _ h rfl
      · simpa [stepState, SendTurn, hcond] using h
  | reset => rfl

theorem runEvents_sysMsgOk (es : List Event) :
    ∀ s : SessionState, sysMsgOk s.messages = true →
      sysMsgOk (runEvents s es).messages = true := by
  induction es with
  | nil => intro s h; simpa [runEvents] using h
  | cons e rest ih =>
      intro s h
      simp only [runEvents]
      exact ih _ (stepState_sysMsgOk s e h)

/-! ## Claim C1 -/

/-- Claim C1, counterexample to the claim as stated.  A StartTopic attempt
whose input checks pass and whose invoke call fails leaves started false
and the client unset, but the transcript is NOT empty: the system message
and the initial user message remain. -/
theorem C1_counterexample :
    (StartTopic initState
        { apiKey := "k", topic := "math", model := "llama-3.1-8b-instant",
          temperature := 0, knowledgeLevel := "Complete Beginner" }
        (Except.ok ()) (Except.error "connection error")).state.started = false
    ∧ (StartTopic initState
        { apiKey := "k", topic := "math", model := "llama-3.1-8b-instant",
          temperature := 0, knowledgeLevel := "Complete Beginner" }
        (Except.ok ()) (Except.error "connection error")).state.llm = none
    ∧ (StartTopic initState
        { apiKey := "k", topic := "math", model := "llama-3.1-8b-instant",
          temperature := 0, knowledgeLevel := "Complete Beginner" }
        (Except.ok ()) (Except.error "connection error")).state.messages ≠ [] := by
  refine ⟨rfl, rfl, ?_⟩
  decide

/-- Claim C1, amended: every StartTopic attempt that fails after the input
checks leaves started false and the client handle unset; the transcript is
empty when the client constructor fails, but when the invoke call fails the
transcript retains the system message and the initial user message (a
partial transcript is retained, contrary to the original claim). -/
theorem C1_failed_start (s : SessionState) (inp : StartInput) (e : String)
    (r : Except String String) (hk : inp.apiKey ≠ "") (ht : inp.topic ≠ "") :
    ((StartTopic s inp (Except.error e) r).state.started = false
      ∧ (StartTopic s inp (Except.error e) r).state.llm = none
      ∧ (StartTopic s inp (Except.error e) r).state.messages = [])
    ∧ ((StartTopic s inp (Except.ok ()) (Except.error e)).state.started = false
      ∧ (StartTopic s inp (Except.ok ()) (Except.error e)).state.llm = none
      ∧ (StartTopic s inp (Except.ok ()) (Except.error e)).state.messages
          = [systemMessage, initialMessage inp.topic inp.knowledgeLevel]) := by
  simp [StartTopic, hk, ht]

/-- Claim C1, witness for the amended theorem at a concrete input. -/
theorem C1_failed_start_witness :
    ("k" : String) ≠ "" ∧ ("math" : String) ≠ ""
    ∧ (((StartTopic initState
          { apiKey := "k", topic := "math", model := "m",
            temperature := 0, knowledgeLevel := "Complete Beginner" }
          (Except.error "boom") (Except.ok "x")).state.started = false
        ∧ (StartTopic initState
          { apiKey := "k", topic := "math", model := "m",
            temperature := 0, knowledgeLevel := "Complete Beginner" }
          (Except.error "boom") (Except.ok "x")).state.llm = none
        ∧ (StartTopic initState
          { apiKey := "k", topic := "math", model := "m",
            temperature := 0, knowledgeLevel := "Complete Beginner" }
          (Except.error "boom") (Except.ok "x")).state.messages = [])
      ∧ ((StartTopic initState
          { apiKey := "k", topic := "math", model := "m",
            temperature := 0, knowledgeLevel := "Complete Beginner" }
          (Except.ok ()) (Except.error "boom")).state.started = false
        ∧ (StartTopic initState
          { apiKey := "k", topic := "math", model := "m",
            temperature := 0, knowledgeLevel := "Complete Beginner" }
          (Except.ok ()) (Except.error "boom")).state.llm = none
        ∧ (StartTopic initState
          { apiKey := "k", topic := "math", model := "m",
            temperature := 0, knowledgeLevel := "Complete Beginner" }
          (Except.ok ()) (Except.error "boom")).state.messages
            = [systemMessage, initialMessage "math" "Complete Beginner"])) :=
  ⟨by decide, by decide,
   C1_failed_start initState
     { apiKey := "k", topic := "math", model := "m",
       temperature := 0, knowledgeLevel := "Complete Beginner" }
     "boom" (Except.ok "x") (by decide) (by decide)⟩

/-! ## Claim C2 -/

/-- Claim C2, counterexample to the claim as stated.  After a successful
start and zero turns the transcript has length 3 (system message, initial
user message, first assistant reply), not 2 + 2 * 0 = 2 as claimed. -/
theorem C2_counterexample :
    (runTurnsOk (StartTopic initState
        { apiKey := "k", topic := "math", model := "m",
          temperature := 0, knowledgeLevel := "Complete Beginner" }
        (Except.ok ()) (Except.ok "welcome")).state []).messages.length
      ≠ 2 + 2 * 0 := by
  decide

/-- Claim C2, amended: after a successful start followed by N successive
successful SendTurn calls with non-empty prompts, the transcript consists
of the system message, the initial user/assistant pair, and the N further
user/assistant pairs in submission order, and hence has length exactly
3 + 2N, not 2 + 2N. -/
theorem C2_transcript_length (s : SessionState) (inp : StartInput)
    (reply : String) (turns : List (String × String))
    (hk : inp.apiKey ≠ "") (ht : inp.topic ≠ "")
    (hall : ∀ pr ∈ turns, pr.1 ≠ "") :
    (runTurnsOk (StartTopic s inp (Except.ok ()) (Except.ok reply)).state
        turns).messages
      = [systemMessage, initialMessage inp.topic inp.knowledgeLevel,
         { role := Role.assistant, content := reply }] ++ turnMessages turns
    ∧ (runTurnsOk (StartTopic s inp (Except.ok ()) (Except.ok reply)).state
        turns).messages.length = 3 + 2 * turns.length := by
  have hstart : (StartTopic s inp (Except.ok ())
      (Except.ok reply)).state.started = true := by
    simp [StartTopic, hk, ht]
  have hmsgs : (StartTopic s inp (Except.ok ())
      (Except.ok reply)).state.messages
      = [systemMessage, initialMessage inp.topic inp.knowledgeLevel,
         { role := Role.assistant, content := reply }] := by
    simp [StartTopic, hk, ht]
  have h := runTurnsOk_messages turns _ hstart hall
  have hcomp := h.1
  rw [hmsgs] at hcomp
  refine ⟨hcomp, ?_⟩
  rw [hcomp]
  simp [turnMessages_length]
  omega

/-- Claim C2, witness for the amended theorem at a concrete input. -/
theorem C2_transcript_length_witness :
    ("k" : String) ≠ "" ∧ ("math" : String) ≠ ""
    ∧ (∀ pr ∈ [(("hi" : String), ("ok" : String))], pr.1 ≠ "")
    ∧ ((runTurnsOk (StartTopic initState
          { apiKey := "k", topic := "math", model := "m",
            temperature := 0, knowledgeLevel := "Complete Beginner" }
          (Except.ok ()) (Except.ok "welcome")).state
        [("hi", "ok")]).messages
        = [systemMessage, initialMessage "math" "Complete Beginner",
           { role := Role.assistant, content := "welcome" }]
            ++ turnMessages [("hi", "ok")]
      ∧ (runTurnsOk (StartTopic initState
          { apiKey := "k", topic := "math", model := "m",
            temperature := 0, knowledgeLevel := "Complete Beginner" }
          (Except.ok ()) (Except.ok "welcome")).state
        [("hi", "ok")]).messages.length
        = 3 + 2 * [(("hi" : String), ("ok" : String))].length) :=
  ⟨by decide, by decide, by decide,
   C2_transcript_length initState
     { apiKey := "k", topic := "math", model := "m",
       temperature := 0, knowledgeLevel := "Complete Beginner" }
     "welcome" [("hi", "ok")] (by decide) (by decide) (by decide)⟩

/-! ## Claim C4 -/

/-- Claim C4, counterexample to the claim as stated.  From an active
session (started already true), clicking Start Learning with an empty
credential issues no request but leaves started = true, not false as the
claim asserts for every session state. -/
theorem C4_counterexample :
    (StartTopic (StartTopic initState
        { apiKey := "k", topic := "math", model := "m",
          temperature := 0, knowledgeLevel := "Complete Beginner" }
        (Except.ok ()) (Except.ok "welcome")).state
      { apiKey := "", topic := "math", model := "m",
        temperature := 0, knowledgeLevel := "Complete Beginner" }
      (Except.ok ()) (Except.ok "w")).state.started = true
    ∧ (StartTopic (StartTopic initState
        { apiKey := "k", topic := "math", model := "m",
          temperature := 0, knowledgeLevel := "Complete Beginner" }
        (Except.ok ()) (Except.ok "welcome")).state
      { apiKey := "", topic := "math", model := "m",
        temperature := 0, knowledgeLevel := "Complete Beginner" }
      (Except.ok ()) (Except.ok "w")).requestsSent = [] := by
  exact ⟨rfl, rfl⟩

/-- Claim C4, amended: starting a topic with an empty credential never
constructs or invokes the client and leaves the whole session state
unchanged, so the started flag keeps its prior value; in particular from a
not-started state it remains false. -/
theorem C4_empty_key_no_request (s : SessionState) (inp : StartInput)
    (c : Except String Unit) (r : Except String String)
    (h : inp.apiKey = "") :
    (StartTopic s inp c r).clientConstructed = false
    ∧ (StartTopic s inp c r).requestsSent = []
    ∧ (StartTopic s inp c r).state = s := by
  simp [StartTopic, h]

/-- Claim C4, witness for the amended theorem at a concrete input. -/
theorem C4_empty_key_no_request_witness :
    ("" : String) = ""
    ∧ ((StartTopic initState
          { apiKey := "", topic := "math", model := "m",
            temperature := 0, knowledgeLevel := "B" }
          (Except.ok ()) (Except.ok "w")).clientConstructed = false
      ∧ (StartTopic initState
          { apiKey := "", topic := "math", model := "m",
            temperature := 0, knowledgeLevel := "B" }
          (Except.ok ()) (Except.ok "w")).requestsSent = []
      ∧ (StartTopic initState
          { apiKey := "", topic := "math", model := "m",
            temperature := 0, knowledgeLevel := "B" }
          (Except.ok ()) (Except.ok "w")).state = initState) :=
  ⟨rfl, C4_empty_key_no_request initState
     { apiKey := "", topic := "math", model := "m",
       temperature := 0, knowledgeLevel := "B" }
     (Except.ok ()) (Except.ok "w") rfl⟩

/-! ## Claim C5 -/

/-- Claim C5: when the request of a SendTurn fails, the user message
appended just before the failing call remains at the end of the
transcript, the earlier transcript is unchanged, and topic, started and
the client handle are untouched, leaving the transcript as-is for the
next attempt. -/
theorem C5_failed_turn_keeps_message (s : SessionState) (p e : String)
    (hs : s.started = true) (hp : p ≠ "") :
    (SendTurn s p (Except.error e)).state.messages
        = s.messages ++ [{ role := Role.user, content := p }]
    ∧ (SendTurn s p (Except.error e)).state.topic = s.topic
    ∧ (SendTurn s p (Except.error e)).state.started = s.started
    ∧ (SendTurn s p (Except.error e)).state.llm = s.llm := by
  simp [SendTurn, hs, hp]

/-- Claim C5, witness at a concrete input. -/
theorem C5_failed_turn_keeps_message_witness :
    (SessionState.mk [] "t" true none).started = true ∧ ("hi" : String) ≠ ""
    ∧ ((SendTurn (SessionState.mk [] "t" true none) "hi"
          (Except.error "boom")).state.messages
        = [] ++ [{ role := Role.user, content := "hi" }]
      ∧ (SendTurn (SessionState.mk [] "t" true none) "hi"
          (Except.error "boom")).state.topic = "t"
      ∧ (SendTurn (SessionState.mk [] "t" true none) "hi"
          (Except.error "boom")).state.started = true
      ∧ (SendTurn (SessionState.mk [] "t" true none) "hi"
          (Except.error "boom")).state.llm = none) :=
  ⟨rfl, by decide,
   C5_failed_turn_keeps_message (SessionState.mk [] "t" true none) "hi"
     "boom" rfl (by decide)⟩

/-! ## Claim C3 -/

/-- Claim C3, counterexample to the claim as stated.  A SendTurn whose
request raises an authentication failure (text containing 401) shows the
remediation hint, but the session is NOT reset: started stays true and the
client handle stays set.  The state used is the one reached by a
successful start. -/
theorem C3_counterexample :
    turnAuthHint ∈ (SendTurn (StartTopic initState
        { apiKey := "k", topic := "math", model := "m",
          temperature := 0, knowledgeLevel := "Complete Beginner" }
        (Except.ok ()) (Except.ok "welcome")).state
      "hi" (Except.error "Error code: 401")).errors
    ∧ (SendTurn (StartTopic initState
        { apiKey := "k", topic := "math", model := "m",
          temperature := 0, knowledgeLevel := "Complete Beginner" }
        (Except.ok ()) (Except.ok "welcome")).state
      "hi" (Except.error "Error code: 401")).state.started = true
    ∧ (SendTurn (StartTopic initState
        { apiKey := "k", topic := "math", model := "m",
          temperature := 0, knowledgeLevel := "Complete Beginner" }
        (Except.ok ()) (Except.ok "welcome")).state
      "hi" (Except.error "Error code: 401")).state.llm ≠ none := by
  refine ⟨?_, rfl, ?_⟩
  · decide
  · decide

/-- Claim C3, amended: an error whose text contains invalid_api_key
(case-insensitively) or 401 is reported with a remediation hint by both
operations, but only StartTopic resets the session to not started
(started false, client handle unset); a SendTurn authentication failure
leaves started and the client handle unchanged. -/
theorem C3_auth_error_handling (s sT : SessionState) (inp : StartInput)
    (e1 e2 p : String) (r : Except String String)
    (hk : inp.apiKey ≠ "") (ht : inp.topic ≠ "")
    (h1 : isAuthError e1 = true)
    (hT : sT.started = true) (hp : p ≠ "") (h2 : isAuthError e2 = true) :
    (startAuthHint ∈ (StartTopic s inp (Except.error e1) r).errors
      ∧ (StartTopic s inp (Except.error e1) r).state.started = false
      ∧ (StartTopic s inp (Except.error e1) r).state.llm = none)
    ∧ (startAuthHint ∈ (StartTopic s inp (Except.ok ())
          (Except.error e1)).errors
      ∧ (StartTopic s inp (Except.ok ()) (Except.error e1)).state.started
          = false
      ∧ (StartTopic s inp (Except.ok ()) (Except.error e1)).state.llm = none)
    ∧ (turnAuthHint ∈ (SendTurn sT p (Except.error e2)).errors
      ∧ (SendTurn sT p (Except.error e2)).state.started = sT.started
      ∧ (SendTurn sT p (Except.error e2)).state.llm = sT.llm) := by
  simp [StartTopic, SendTurn, startErrors, turnErrors, hk, ht, h1, hT, hp, h2]

/-- Claim C3, witness for the amended theorem at a concrete input. -/
theorem C3_auth_error_handling_witness :
    ("bad" : String) ≠ "" ∧ ("math" : String) ≠ ""
    ∧ isAuthError "401" = true
    ∧ (SessionState.mk [] "t" true none).started = true
    ∧ ("hi" : String) ≠ ""
    ∧ ((startAuthHint ∈ (StartTopic initState
            { apiKey := "bad", topic := "math", model := "m",
              temperature := 0, knowledgeLevel := "B" }
            (Except.error "401") (Except.ok "x")).errors
        ∧ (StartTopic initState
            { apiKey := "bad", topic := "math", model := "m",
              temperature := 0, knowledgeLevel := "B" }
            (Except.error "401") (Except.ok "x")).state.started = false
        ∧ (StartTopic initState
            { apiKey := "bad", topic := "math", model := "m",
              temperature := 0, knowledgeLevel := "B" }
            (Except.error "401") (Except.ok "x")).state.llm = none)
      ∧ (startAuthHint ∈ (StartTopic initState
            { apiKey := "bad", topic := "math", model := "m",
              temperature := 0, knowledgeLevel := "B" }
            (Except.ok ()) (Except.error "401")).errors
        ∧ (StartTopic initState
            { apiKey := "bad", topic := "math", model := "m",
              temperature := 0, knowledgeLevel := "B" }
            (Except.ok ()) (Except.error "401")).state.started = false
        ∧ (StartTopic initState
            { apiKey := "bad", topic := "math", model := "m",
              temperature := 0, knowledgeLevel := "B" }
            (Except.ok ()) (Except.error "401")).state.llm = none)
      ∧ (turnAuthHint ∈ (SendTurn (SessionState.mk [] "t" true none) "hi"
            (Except.error "401")).errors
        ∧ (SendTurn (SessionState.mk [] "t" true none) "hi"
            (Except.error "401")).state.started = true
        ∧ (SendTurn (SessionState.mk [] "t" true none) "hi"
            (Except.error "401")).state.llm = none)) :=
  ⟨by decide, by decide, by decide, rfl, by decide,
   C3_auth_error_handling initState (SessionState.mk [] "t" true none)
     { apiKey := "bad", topic := "math", model := "m",
       temperature := 0, knowledgeLevel := "B" }
     "401" "401" "hi" (Except.ok "x") (by decide) (by decide) (by decide)
     rfl (by decide) (by decide)⟩

/-! ## Claim C6 -/

/-- Claim C6, counterexample to the claim as stated.  The state reached by
a single StartTopic whose invoke call fails has started = false but still
contains one system message, so a system message is not present only while
a topic is active. -/
theorem C6_counterexample :
    (runEvents initState [Event.start
        { apiKey := "k", topic := "math", model := "m",
          temperature := 0, knowledgeLevel := "Complete Beginner" }
        (Except.ok ()) (Except.error "boom")]).started = false
    ∧ systemCount (runEvents initState [Event.start
        { apiKey := "k", topic := "math", model := "m",
          temperature := 0, knowledgeLevel := "Complete Beginner" }
        (Except.ok ()) (Except.error "boom")]).messages = 1 := by
  exact ⟨rfl, rfl⟩

/-- Claim C6, amended: in every state reachable by any sequence of
StartTopic, SendTurn and Reset events, the transcript contains at most one
system message and any system message is the first element; the further
original conjunct that a system message is present only while started is
true fails, because a start attempt whose request fails leaves the system
message in place with started = false. -/
theorem C6_system_message_invariant (es : List Event) :
    systemCount (runEvents initState es).messages ≤ 1
    ∧ sysMsgOk (runEvents initState es).messages = true := by
  have h := runEvents_sysMsgOk es initState rfl
  exact ⟨sysMsgOk_systemCount _ h, h⟩

/-! ## Claim C7 -/

/-- Claim C7: from every prior session state, Reset leaves an empty
transcript, an empty topic, started = false and no client handle.  Reset
is a total function of the prior state, so it has no failure modes. -/
theorem C7_reset_clears (s : SessionState) :
    (Reset s).messages = [] ∧ (Reset s).topic = ""
    ∧ (Reset s).started = false ∧ (Reset s).llm = none :=
  ⟨rfl, rfl, rfl, rfl⟩

/-! ## Claim C8 -/

/-- Claim C8: a StartTopic attempt with an empty topic or an empty
credential is caught before any request (no client constructed, nothing
sent), reports an inline error, and changes no session state. -/
theorem C8_missing_input_no_change (s : SessionState) (inp : StartInput)
    (c : Except String Unit) (r : Except String String)
    (h : inp.apiKey = "" ∨ inp.topic = "") :
    (StartTopic s inp c r).state = s
    ∧ (StartTopic s inp c r).clientConstructed = false
    ∧ (StartTopic s inp c r).requestsSent = []
    ∧ (StartTopic s inp c r).errors ≠ [] := by
  rcases h with h | h
  · simp [StartTopic, h]
  · by_cases hk : inp.apiKey = "" <;> simp [StartTopic, h, hk]

/-- Claim C8, witness at a concrete input (empty topic). -/
theorem C8_missing_input_no_change_witness :
    (("k" : String) = "" ∨ ("" : String) = "")
    ∧ ((StartTopic initState
          { apiKey := "k", topic := "", model := "m",
            temperature := 0, knowledgeLevel := "B" }
          (Except.ok ()) (Except.ok "w")).state = initState
      ∧ (StartTopic initState
          { apiKey := "k", topic := "", model := "m",
            temperature := 0, knowledgeLevel := "B" }
          (Except.ok ()) (Except.ok "w")).clientConstructed = false
      ∧ (StartTopic initState
          { apiKey := "k", topic := "", model := "m",
            temperature := 0, knowledgeLevel := "B" }
          (Except.ok ()) (Except.ok "w")).requestsSent = []
      ∧ (StartTopic initState
          { apiKey := "k", topic := "", model := "m",
            temperature := 0, knowledgeLevel := "B" }
          (Except.ok ()) (Except.ok "w")).errors ≠ []) :=
  ⟨Or.inr rfl,
   C8_missing_input_no_change initState
     { apiKey := "k", topic := "", model := "m",
       temperature := 0, knowledgeLevel := "B" }
     (Except.ok ()) (Except.ok "w") (Or.inr rfl)⟩

/-! ## Claim C9 -/

/-- Claim C9: with an active topic and a non-empty prompt, SendTurn
appends a user message carrying exactly the submitted text, sends the
entire current transcript including that message to the client with no
truncation, and on success appends the returned reply verbatim as an
assistant message. -/
theorem C9_turn_success (s : SessionState) (p r : String)
    (hs : s.started = true) (hp : p ≠ "") :
    (SendTurn s p (Except.ok r)).requestsSent
        = [s.messages ++ [{ role := Role.user, content := p }]]
    ∧ (SendTurn s p (Except.ok r)).state.messages
        = s.messages ++ [{ role := Role.user, content := p },
                         { role := Role.assistant, content := r }] := by
  simp [SendTurn, hs, hp]

/-- Claim C9, witness at a concrete input. -/
theorem C9_turn_success_witness :
    (SessionState.mk [{ role := Role.system, content := "s" }] "t" true
        none).started = true
    ∧ ("hi" : String) ≠ ""
    ∧ ((SendTurn (SessionState.mk [{ role := Role.system, content := "s" }]
          "t" true none) "hi" (Except.ok "ok")).requestsSent
        = [[{ role := Role.system, content := "s" }]
            ++ [{ role := Role.user, content := "hi" }]]
      ∧ (SendTurn (SessionState.mk [{ role := Role.system, content := "s" }]
          "t" true none) "hi" (Except.ok "ok")).state.messages
        = [{ role := Role.system, content := "s" }]
            ++ [{ role := Role.user, content := "hi" },
                { role := Role.assistant, content := "ok" }]) :=
  ⟨rfl, by decide,
   C9_turn_success (SessionState.mk [{ role := Role.system, content := "s" }]
     "t" true none) "hi" "ok" rfl (by decide)⟩

/-! ## Claim C10 -/

/-- Claim C10: a StartTopic attempt that passes the input checks but then
fails with an exception (at the client constructor or at the invoke call)
leaves the topic field holding the newly attempted topic, while started is
false and the client handle is unset. -/
theorem C10_topic_retained (s : SessionState) (inp : StartInput)
    (e : String) (r : Except String String)
    (hk : inp.apiKey ≠ "") (ht : inp.topic ≠ "") :
    ((StartTopic s inp (Except.error e) r).state.topic = inp.topic
      ∧ (StartTopic s inp (Except.error e) r).state.started = false
      ∧ (StartTopic s inp (Except.error e) r).state.llm = none)
    ∧ ((StartTopic s inp (Except.ok ()) (Except.error e)).state.topic
          = inp.topic
      ∧ (StartTopic s inp (Except.ok ()) (Except.error e)).state.started
          = false
      ∧ (StartTopic s inp (Except.ok ()) (Except.error e)).state.llm
          = none) := by
  simp [StartTopic, hk, ht]

/-- Claim C10, witness at a concrete input. -/
theorem C10_topic_retained_witness :
    ("k" : String) ≠ "" ∧ ("chemistry" : String) ≠ ""
    ∧ (((StartTopic initState
          { apiKey := "k", topic := "chemistry", model := "m",
            temperature := 0, knowledgeLevel := "B" }
          (Except.error "boom") (Except.ok "x")).state.topic = "chemistry"
        ∧ (StartTopic initState
          { apiKey := "k", topic := "chemistry", model := "m",
            temperature := 0, knowledgeLevel := "B" }
          (Except.error "boom") (Except.ok "x")).state.started = false
        ∧ (StartTopic initState
          { apiKey := "k", topic := "chemistry", model := "m",
            temperature := 0, knowledgeLevel := "B" }
          (Except.error "boom") (Except.ok "x")).state.llm = none)
      ∧ ((StartTopic initState
          { apiKey := "k", topic := "chemistry", model := "m",
            temperature := 0, knowledgeLevel := "B" }
          (Except.ok ()) (Except.error "boom")).state.topic = "chemistry"
        ∧ (StartTopic initState
          { apiKey := "k", topic := "chemistry", model := "m",
            temperature := 0, knowledgeLevel := "B" }
          (Except.ok ()) (Except.error "boom")).state.started = false
        ∧ (StartTopic initState
          { apiKey := "k", topic := "chemistry", model := "m",
            temperature := 0, knowledgeLevel := "B" }
          (Except.ok ()) (Except.error "boom")).state.llm = none)) :=
  ⟨by decide, by decide,
   C10_topic_retained initState
     { apiKey := "k", topic := "chemistry", model := "m",
       temperature := 0, knowledgeLevel := "B" }
     "boom" (Except.ok "x") (by decide) (by decide)⟩
